import Mathlib

/-!
Verification of the `pylutron-caseta` LEAP client against its natural-language
specification.

The development shallowly embeds the parts of `pylutron_caseta/leap.py`,
`pylutron_caseta/messages.py` and `pylutron_caseta/smartbridge.py` that the
claims are about:

* Python `dict`s (which preserve insertion order and have unique keys) are
  embedded as association lists `List (String × α)` with `alGet` (`d.get`/`in`),
  `alInsert` (`d[k] = v`), `alErase` (`d.pop(k, None)`, discarding the value).
* Callbacks are identified by `Nat` tokens; invoking a callback is recorded as
  an emitted event rather than executed, so that routing decisions are visible
  in the function's result.
* Fallible Python code (raised `ValueError` / `KeyError`) is embedded with
  `Except String`.
-/

/-- Lookup in an insertion-ordered association list, mirroring Python
`dict.get(key, None)` / `key in dict` (keys are unique in a `dict`, and all the
states built by the embedded code keep keys unique). -/
def alGet {α : Type} : List (String × α) → String → Option α
  | [], _ => none
  | (k, v) :: rest, key => if k = key then some v else alGet rest key

/-- Key removal, mirroring the removal effect of Python `dict.pop(key, None)`. -/
def alErase {α : Type} : List (String × α) → String → List (String × α)
  | [], _ => []
  | (k, v) :: rest, key =>
      if k = key then alErase rest key else (k, v) :: alErase rest key

/-- Insertion/overwrite, mirroring Python `dict[key] = value`: replaces in
place if the key exists (keeping its position), otherwise appends. -/
def alInsert {α : Type} : List (String × α) → String → α → List (String × α)
  | [], key, v => [(key, v)]
  | (k, w) :: rest, key, v =>
      if k = key then (k, v) :: rest else (k, w) :: alInsert rest key v

theorem alGet_alInsert_self {α : Type} (l : List (String × α)) (k : String) (v : α) :
    alGet (alInsert l k v) k = some v := by
  induction l with
  | nil => simp [alInsert, alGet]
  | cons hd tl ih =>
      obtain ⟨k', v'⟩ := hd
      by_cases h : k' = k <;> simp [alInsert, alGet, h, ih]

theorem alGet_alInsert_ne {α : Type} (l : List (String × α)) (k k' : String) (v : α)
    (h : k ≠ k') : alGet (alInsert l k v) k' = alGet l k' := by
  induction l with
  | nil => simp [alInsert, alGet, h]
  | cons hd tl ih =>
      obtain ⟨k₀, v₀⟩ := hd
      by_cases h₀ : k₀ = k
      · subst h₀
        simp [alInsert, alGet, h]
      · simp only [alInsert, if_neg h₀]
        by_cases h₁ : k₀ = k'
        · simp [alGet, h₁]
        · simp [alGet, h₁, ih]

theorem alErase_of_alGet_none {α : Type} (l : List (String × α)) (k : String)
    (h : alGet l k = none) : alErase l k = l := by
  induction l with
  | nil => simp [alErase]
  | cons hd tl ih =>
      obtain ⟨k₀, v₀⟩ := hd
      by_cases h₀ : k₀ = k
      · simp [alGet, h₀] at h
      · simp only [alGet, if_neg h₀] at h
        simp [alErase, h₀, ih h]

/-! ## messages.py -/

/-- Embeds `messages.ResponseStatus`: a response status split into its code and
message parts. -/
structure ResponseStatus where
  code : Option Int
  message : String
deriving Repr, DecidableEq

/-- Embeds `ResponseStatus.is_successful`: check if the status code is in the
range [200, 300). (`self.code is not None and self.code >= 200 and
self.code < 300`.) -/
def ResponseStatus.is_successful (s : ResponseStatus) : Bool :=
  match s.code with
  | none => false
  | some c => 200 ≤ c && c < 300

/-- Embeds `messages.ResponseHeader` (a `NamedTuple` with optional fields). -/
structure ResponseHeader where
  StatusCode : Option ResponseStatus := none
  Url : Option String := none
  MessageBodyType : Option String := none
deriving Repr, DecidableEq

/-- Bodies reaching the LEAP layer are opaque JSON dictionaries; the LEAP
routing code never inspects them, so the embedding leaves the body abstract as
an identifying token. The smartbridge layer (below) uses typed payloads
instead, one per handler, mirroring the exact dictionary keys each handler
reads. -/
abbrev LeapBody : Type := Nat

/-- Embeds `messages.Response` (`Header`, `CommuniqueType`, `Body`). -/
structure Response where
  Header : ResponseHeader
  CommuniqueType : Option String := none
  Body : Option LeapBody := none
deriving Repr, DecidableEq

/-! ## leap.py: LeapProtocol state and the read loop -/

/-- An in-flight request waiter (`asyncio.Future`). Only its identity and
whether it is already completed (`future.done()`) matter for routing. -/
structure Waiter where
  id : Nat
  done : Bool
deriving Repr, DecidableEq

/-- The mutable state of `LeapProtocol` that the read loop and `subscribe`
touch: `self._in_flight_requests`, `self._tagged_subscriptions`,
`self._unsolicited_subs`. Callbacks are identified by `Nat` tokens. -/
structure LeapState where
  in_flight_requests : List (String × Waiter)
  tagged_subscriptions : List (String × Nat)
  unsolicited_subs : List Nat
deriving Repr, DecidableEq

deriving instance DecidableEq for Except

/-- Observable effects of processing one inbound frame in `LeapProtocol.run`. -/
inductive LeapEvent where
  /-- `in_flight.set_result(Response.from_json(resp_json))` on waiter `w`. -/
  | resolveWaiter (tag : String) (w : Nat) (r : Response)
  /-- `subscription(Response.from_json(resp_json))` on callback `s`. -/
  | invokeSubscription (tag : String) (s : Nat) (r : Response)
  /-- `_LOG.error("Was not expecting message with tag %s ...")`: discarded. -/
  | discardUnexpected (tag : String)
  /-- `handler(obj)` on unsolicited handler `h`, with the outcome of the call
  (`Except.error` when the handler raised; caught by the loop). -/
  | invokeHandler (h : Nat) (outcome : Except String Unit) (r : Response)
deriving Repr, DecidableEq

/-- One inbound frame as seen by the read loop after JSON parsing:
`tag = resp_json.get("Header", {}).pop("ClientTag", None)` and
`resp = Response.from_json(resp_json)`. -/
structure Frame where
  tag : Option String
  resp : Response
deriving Repr, DecidableEq

/-- Embeds the `for handler in self._unsolicited_subs: try: handler(obj)
except Exception: _LOG.exception(...)` loop of `LeapProtocol.run`. `hbehav`
gives the behaviour of each callback token (`Except.error` = the handler
raises). The exception is caught and logged, and the loop continues with the
remaining handlers. -/
def runHandlers (hbehav : Nat → Response → Except String Unit) :
    List Nat → Response → List LeapEvent
  | [], _ => []
  | h :: rest, r =>
      match hbehav h r with
      | Except.ok _ =>
          LeapEvent.invokeHandler h (Except.ok ()) r :: runHandlers hbehav rest r
      | Except.error e =>
          LeapEvent.invokeHandler h (Except.error e) r :: runHandlers hbehav rest r

/-- Embeds the tagged branch of `LeapProtocol.run` after the in-flight pop
found no pending waiter: `subscription = self._tagged_subscriptions.get(tag,
None)`; call it if present (without removing it), otherwise log and discard. -/
def processTagged (st : LeapState) (tag : String) (r : Response) :
    LeapState × List LeapEvent :=
  match alGet st.tagged_subscriptions tag with
  | some s => (st, [LeapEvent.invokeSubscription tag s r])
  | none => (st, [LeapEvent.discardUnexpected tag])

/-- Embeds the body of the `while` loop in `LeapProtocol.run` for one parsed
frame: pop `ClientTag`; if a pending not-yet-done waiter exists, resolve it;
else try the tagged subscription; else log-and-discard; untagged frames go to
every unsolicited handler with exceptions caught. -/
def processFrame (hbehav : Nat → Response → Except String Unit)
    (st : LeapState) (f : Frame) : LeapState × List LeapEvent :=
  match f.tag with
  | some tag =>
      let in_flight := alGet st.in_flight_requests tag
      let st' : LeapState :=
        { st with in_flight_requests := alErase st.in_flight_requests tag }
      match in_flight with
      | some w =>
          if w.done = false then
            (st', [LeapEvent.resolveWaiter tag w.id f.resp])
          else
            processTagged st' tag f.resp
      | none => processTagged st' tag f.resp
  | none =>
      (st, runHandlers hbehav st.unsolicited_subs f.resp)

/-- Embeds `LeapProtocol.subscribe` after the underlying `request` returned
`response` for `tag`: on a successful status the callback is stored in
`self._tagged_subscriptions[tag]`; `(response, tag)` is returned either way. -/
def subscribeStep (st : LeapState) (tag : String) (callback : Nat)
    (response : Response) : LeapState × Response × String :=
  let st' :=
    match response.Header.StatusCode with
    | some status =>
        if status.is_successful then
          { st with
              tagged_subscriptions := alInsert st.tagged_subscriptions tag callback }
        else st
    | none => st
  (st', response, tag)

/-! ## LEAP layer theorems -/

/-- Characterisation of `ResponseStatus.is_successful` as the [200, 300)
range check. -/
theorem is_successful_iff (s : ResponseStatus) :
    s.is_successful = true ↔ ∃ c, s.code = some c ∧ 200 ≤ c ∧ c < 300 := by
  unfold ResponseStatus.is_successful
  cases h : s.code with
  | none => simp
  | some c =>
      simp only [Bool.and_eq_true, decide_eq_true_eq]
      constructor
      · rintro ⟨h1, h2⟩
        exact ⟨c, rfl, h1, h2⟩
      · rintro ⟨c', hc', h1, h2⟩
        cases hc'
        exact ⟨h1, h2⟩

/-- C1: In the LEAP read loop, for an inbound frame carrying ClientTag `t`:
if a pending not-yet-done in-flight waiter exists for `t`, exactly that waiter
is resolved with the parsed Response and `t` is removed from the in-flight
table (no other event is emitted and the subscription table is untouched);
otherwise, if a tagged subscription is registered under `t`, its callback is
invoked with the parsed Response and the subscription entry is not removed;
otherwise the frame is discarded. -/
theorem leap_run_tag_routing (hbehav : Nat → Response → Except String Unit)
    (st : LeapState) (t : String) (r : Response) :
    (∀ w, alGet st.in_flight_requests t = some w → w.done = false →
       processFrame hbehav st ⟨some t, r⟩ =
         ({ st with in_flight_requests := alErase st.in_flight_requests t },
          [LeapEvent.resolveWaiter t w.id r]))
    ∧ (∀ s, (∀ w, alGet st.in_flight_requests t = some w → w.done = true) →
       alGet st.tagged_subscriptions t = some s →
       processFrame hbehav st ⟨some t, r⟩ =
         ({ st with in_flight_requests := alErase st.in_flight_requests t },
          [LeapEvent.invokeSubscription t s r]))
    ∧ ((∀ w, alGet st.in_flight_requests t = some w → w.done = true) →
       alGet st.tagged_subscriptions t = none →
       processFrame hbehav st ⟨some t, r⟩ =
         ({ st with in_flight_requests := alErase st.in_flight_requests t },
          [LeapEvent.discardUnexpected t])) := by
  refine ⟨?_, ?_, ?_⟩
  · intro w hw hdone
    simp [processFrame, hw, hdone]
  · intro s hdone hs
    unfold processFrame
    simp only
    cases hw : alGet st.in_flight_requests t with
    | none => simp [processTagged, hs]
    | some w =>
        have : w.done = true := hdone w hw
        simp [this, processTagged, hs]
  · intro hdone hs
    unfold processFrame
    simp only
    cases hw : alGet st.in_flight_requests t with
    | none => simp [processTagged, hs]
    | some w =>
        have : w.done = true := hdone w hw
        simp [this, processTagged, hs]

/-- Witness for `leap_run_tag_routing` at a concrete state with a pending
waiter under tag `"a"`. -/
theorem leap_run_tag_routing_witness :
    alGet (⟨[("a", ⟨5, false⟩)], [("b", 9)], [7]⟩ :
        LeapState).in_flight_requests "a" = some ⟨5, false⟩
    ∧ processFrame (fun _ _ => Except.ok ())
        ⟨[("a", ⟨5, false⟩)], [("b", 9)], [7]⟩
        ⟨some "a", ⟨⟨none, none, none⟩, none, none⟩⟩ =
      (⟨[], [("b", 9)], [7]⟩,
       [LeapEvent.resolveWaiter "a" 5 ⟨⟨none, none, none⟩, none, none⟩]) := by
  constructor
  · rfl
  · have h := (leap_run_tag_routing (fun _ _ => Except.ok ())
        ⟨[("a", ⟨5, false⟩)], [("b", 9)], [7]⟩ "a"
        ⟨⟨none, none, none⟩, none, none⟩).1 ⟨5, false⟩ rfl rfl
    exact h.trans (by rfl)

/-- C4: `LeapProtocol.subscribe` registers the callback in the
tagged-subscription table under the request's tag iff the response carries a
status code in [200, 300); on any other response (including one with no status
code) the table is unchanged; in both cases `(response, tag)` is returned. -/
theorem leap_subscribe_registration (st : LeapState) (tag : String) (cb : Nat)
    (resp : Response) (hfresh : alGet st.tagged_subscriptions tag = none) :
    (subscribeStep st tag cb resp).2 = (resp, tag)
    ∧ (alGet (subscribeStep st tag cb resp).1.tagged_subscriptions tag = some cb
        ↔ ∃ s c, resp.Header.StatusCode = some s ∧ s.code = some c
            ∧ 200 ≤ c ∧ c < 300)
    ∧ (¬ (∃ s c, resp.Header.StatusCode = some s ∧ s.code = some c
            ∧ 200 ≤ c ∧ c < 300) →
        (subscribeStep st tag cb resp).1 = st) := by
  refine ⟨rfl, ?_, ?_⟩
  · unfold subscribeStep
    cases hsc : resp.Header.StatusCode with
    | none => simp [hfresh]
    | some s =>
        by_cases hsucc : s.is_successful = true
        · simp only [hsucc, if_true]
          simp only [alGet_alInsert_self]
          obtain ⟨c, hc, h1, h2⟩ := (is_successful_iff s).mp hsucc
          simp only [true_iff]
          exact ⟨s, c, rfl, hc, h1, h2⟩
        · simp only [Bool.not_eq_true] at hsucc
          simp only [hsucc, Bool.false_eq_true, if_false, hfresh]
          constructor
          · intro h; cases h
          · rintro ⟨s', c, hs', hc, h1, h2⟩
            cases hs'
            have : s.is_successful = true := (is_successful_iff s).mpr ⟨c, hc, h1, h2⟩
            rw [hsucc] at this
            cases this
  · intro hfail
    unfold subscribeStep
    cases hsc : resp.Header.StatusCode with
    | none => rfl
    | some s =>
        by_cases hsucc : s.is_successful = true
        · obtain ⟨c, hc, h1, h2⟩ := (is_successful_iff s).mp hsucc
          exact absurd ⟨s, c, hsc, hc, h1, h2⟩ hfail
        · simp only [Bool.not_eq_true] at hsucc
          simp [hsucc]

/-- Witness for `leap_subscribe_registration` at a concrete state: a fresh
tag, a `"204 NoContent"`-style status, and the registration taking place. -/
theorem leap_subscribe_registration_witness :
    alGet ((⟨[], [], []⟩ : LeapState)).tagged_subscriptions "t" = none
    ∧ alGet (subscribeStep ⟨[], [], []⟩ "t" 3
        ⟨⟨some ⟨some 204, "NoContent"⟩, none, none⟩, none, none⟩).1.tagged_subscriptions
        "t" = some 3 := by
  constructor
  · rfl
  · exact ((leap_subscribe_registration ⟨[], [], []⟩ "t" 3
      ⟨⟨some ⟨some 204, "NoContent"⟩, none, none⟩, none, none⟩ rfl).2.1).mpr
      ⟨⟨some 204, "NoContent"⟩, 204, rfl, rfl, by norm_num, by norm_num⟩

/-- The unsolicited-handler loop calls every handler in order, recording each
handler's own outcome, regardless of raised exceptions. -/
theorem runHandlers_eq_map (hbehav : Nat → Response → Except String Unit)
    (hs : List Nat) (r : Response) :
    runHandlers hbehav hs r =
      hs.map (fun h => LeapEvent.invokeHandler h (hbehav h r) r) := by
  induction hs with
  | nil => rfl
  | cons h rest ih =>
      unfold runHandlers
      cases hb : hbehav h r with
      | ok u => cases u; simp [ih, hb]
      | error e => simp [ih, hb]

/-- C5: For every inbound frame without a ClientTag, the read loop delivers
the parsed Response to every registered unsolicited handler in registration
order; a handler that raises has its exception caught (recorded as its
outcome), which neither prevents delivery to the remaining handlers nor
changes the protocol state (the loop keeps running: `processFrame` is total
and returns the state unchanged). Universally quantified over `hbehav`, so it
holds in particular when some handlers raise. -/
theorem leap_run_untagged_delivery (hbehav : Nat → Response → Except String Unit)
    (st : LeapState) (r : Response) :
    processFrame hbehav st ⟨none, r⟩ =
      (st, st.unsolicited_subs.map
        (fun h => LeapEvent.invokeHandler h (hbehav h r) r)) := by
  unfold processFrame
  simp [runHandlers_eq_map]

/-! ## leap.py: id_from_href

`id_from_href` matches `href` against the compiled pattern
`_HREFRE = re.compile(r"/(?:\D+)/(\d+)(?:\/\D+)?")` using `re.match` (anchored
at the start of the string only; trailing unmatched input is allowed) and
returns capture group 1, raising `ValueError` when there is no match.

The embedding implements the backtracking search of this specific pattern on
the character list. `\D`/`\d` are embedded as `Char.isDigit` (the hrefs the
library handles are ASCII). The trailing optional group `(?:\/\D+)?` can
always match the empty string and sits after the capture, so it affects
neither match success nor group 1 and is omitted. -/

/-- The characters captured by the greedy `(\d+)` group once the engine is
positioned at its first digit: the maximal digit run. -/
def takeDigits : List Char → List Char
  | [] => []
  | c :: rest => if c.isDigit then c :: takeDigits rest else []

/-- Backtracking match of `(?:\D*)/(\d+)` against the input, used after the
first (mandatory) `\D` character has been consumed: greedily try to extend
`\D+` with the next character, and on failure fall back to reading it as the
literal `/` that must precede the digit group. Returns group 1. -/
def matchTail : List Char → Option (List Char)
  | [] => none
  | c :: rest =>
      match (if c.isDigit = false then matchTail rest else none) with
      | some g => some g
      | none =>
          if c = '/' then
            match rest with
            | [] => none
            | d :: _ => if d.isDigit then some (takeDigits rest) else none
          else none

/-- Match of the full pattern `/(?:\D+)/(\d+)` at the start of the input:
a literal `/`, then at least one non-digit, then `matchTail`. -/
def id_from_href_chars : List Char → Option (List Char)
  | c0 :: c :: rest =>
      if c0 = '/' then (if c.isDigit then none else matchTail rest) else none
  | _ => none

/-- Embeds `leap.id_from_href`: get an id from any kind of href; raises
`ValueError` if the id cannot be determined from the format. -/
def id_from_href (href : String) : Except String String :=
  match id_from_href_chars href.data with
  | some ds => Except.ok (String.mk ds)
  | none => Except.error ("Cannot find ID from href " ++ href)

/-! ## smartbridge.py: _format_duration

`_format_duration` converts a `timedelta` to the `hh:mm:ss` format used in
LEAP. A non-negative `timedelta` is embedded as its total number of
microseconds `us : Nat` (the resolution of `timedelta`);
`math.floor(duration.total_seconds())` is `us / 1000000` (Python float
arithmetic agrees with exact integer division at every magnitude a session
duration can reach, in particular at all inputs evaluated below), and the
`math.floor(x / 60)` / `int(x / 60)` steps on these non-negative quantities
are `/ 60` on `Nat`. -/

/-- Embeds the Python format spec `f"{n:02}"` for a non-negative integer:
decimal digits, left-padded with zeros to a minimum width of two. -/
def pad2 (n : Nat) : String :=
  if n < 10 then "0" ++ Nat.repr n else Nat.repr n

/-- Embeds `smartbridge._format_duration`. -/
def format_duration (us : Nat) : String :=
  let total_seconds := us / 1000000
  let seconds := total_seconds % 60
  let total_minutes := total_seconds / 60
  let minutes := total_minutes % 60
  let hours := total_minutes / 60
  pad2 hours ++ ":" ++ pad2 minutes ++ ":" ++ pad2 seconds

/-- Modelled from the claim's words: a string consisting of exactly three
colon-separated zero-padded two-digit fields `HH:MM:SS`. -/
def specClockFormat (s : String) : Bool :=
  match s.data with
  | [h1, h2, c1, m1, m2, c2, s1, s2] =>
      h1.isDigit && h2.isDigit && c1 = ':' && m1.isDigit && m2.isDigit
        && c2 = ':' && s1.isDigit && s2.isDigit
  | _ => false

/-- A string of exactly two decimal digits. -/
def twoDigitsB (s : String) : Bool :=
  match s.data with
  | [a, b] => a.isDigit && b.isDigit
  | _ => false

theorem pad2_twoDigits : ∀ n : Nat, n < 100 → twoDigitsB (pad2 n) = true := by
  decide

theorem twoDigits_shape (s : String) (h : twoDigitsB s = true) :
    ∃ a b, s.data = [a, b] ∧ a.isDigit = true ∧ b.isDigit = true := by
  unfold twoDigitsB at h
  rcases s with ⟨la⟩
  rcases la with _ | ⟨x, _ | ⟨y, _ | ⟨z, t⟩⟩⟩ <;> simp_all
  exact ⟨x, y, ⟨rfl, rfl⟩, h⟩

theorem specClockFormat_of_twoDigits (a b c : String)
    (ha : twoDigitsB a = true) (hb : twoDigitsB b = true)
    (hc : twoDigitsB c = true) :
    specClockFormat (a ++ ":" ++ b ++ ":" ++ c) = true := by
  obtain ⟨a1, a2, hA, ha1, ha2⟩ := twoDigits_shape a ha
  obtain ⟨b1, b2, hB, hb1, hb2⟩ := twoDigits_shape b hb
  obtain ⟨c1, c2, hC, hc1, hc2⟩ := twoDigits_shape c hc
  have hdata : (a ++ ":" ++ b ++ ":" ++ c).data
      = [a1, a2, ':', b1, b2, ':', c1, c2] := by
    simp [String.data_append, hA, hB, hC]
  unfold specClockFormat
  rw [hdata]
  simp [ha1, ha2, hb1, hb2, hc1, hc2]

/-- C7 counterexample: a 100-hour duration (360000 seconds) encodes to
`"100:00:00"`, whose hours field has three digits, so the encoding is not
always three two-digit fields as the claim states. -/
theorem format_duration_counterexample :
    format_duration 360000000000 = "100:00:00"
    ∧ specClockFormat (format_duration 360000000000) = false := by
  constructor <;> rfl

/-- C7 (amended): the fade-time encoder truncates the duration to whole
seconds (floor) — sub-second microseconds do not change the output — and
renders it as colon-separated zero-padded decimal fields `HH:MM:SS` with
minutes and seconds in [0, 59]; the fields are all exactly two digits
whenever the duration is under 100 hours (the hours field grows beyond two
digits otherwise); a 4-second duration encodes to `"00:00:04"` and a
3661-second duration encodes to `"01:01:01"`. -/
theorem format_duration_spec (us : Nat) :
    format_duration us = format_duration (us / 1000000 * 1000000)
    ∧ us / 1000000 / 60 % 60 ≤ 59
    ∧ us / 1000000 % 60 ≤ 59
    ∧ (us / 1000000 < 360000 → specClockFormat (format_duration us) = true)
    ∧ format_duration 4000000 = "00:00:04"
    ∧ format_duration 3661000000 = "01:01:01" := by
  refine ⟨?_, ?_, ?_, ?_, rfl, rfl⟩
  · unfold format_duration
    rw [Nat.mul_div_cancel _ (by norm_num : (0 : Nat) < 1000000)]
  · have := Nat.mod_lt (us / 1000000 / 60) (by norm_num : (0 : Nat) < 60)
    omega
  · have := Nat.mod_lt (us / 1000000) (by norm_num : (0 : Nat) < 60)
    omega
  · intro hlt
    have hh : us / 1000000 / 60 / 60 < 100 := by
      rw [Nat.div_div_eq_div_mul, Nat.div_div_eq_div_mul]
      exact Nat.div_lt_of_lt_mul (by omega)
    have hm : us / 1000000 / 60 % 60 < 100 :=
      lt_trans (Nat.mod_lt _ (by norm_num)) (by norm_num)
    have hs : us / 1000000 % 60 < 100 :=
      lt_trans (Nat.mod_lt _ (by norm_num)) (by norm_num)
    exact specClockFormat_of_twoDigits _ _ _
      (pad2_twoDigits _ hh) (pad2_twoDigits _ hm) (pad2_twoDigits _ hs)

/-- Witness for `format_duration_spec`: the under-100-hours hypothesis holds
at the 4-second input and the encoding is in two-digit clock format there. -/
theorem format_duration_spec_witness :
    (4000000 : Nat) / 1000000 < 360000
    ∧ specClockFormat (format_duration 4000000) = true := by
  refine ⟨by norm_num, ?_⟩
  exact (format_duration_spec 4000000).2.2.2.1 (by norm_num)

/-! ## id_from_href theorems -/

theorem matchTail_cons (c : Char) (rest : List Char) :
    matchTail (c :: rest) =
      match (if c.isDigit = false then matchTail rest else none) with
      | some g => some g
      | none =>
          if c = '/' then
            match rest with
            | [] => none
            | d :: _ => if d.isDigit then some (takeDigits rest) else none
          else none := rfl

theorem matchTail_of_digit_head (d : Char) (r : List Char)
    (hd : d.isDigit = true) : matchTail (d :: r) = none := by
  rw [matchTail_cons]
  have hslash : ¬ d = '/' := by
    intro h
    rw [h] at hd
    simp at hd
  rw [if_neg (by simp [hd])]
  simp [hslash]

theorem matchTail_complete (p : List Char) (d : Char) (r : List Char)
    (hp : ∀ c ∈ p, c.isDigit = false) (hd : d.isDigit = true) :
    matchTail (p ++ '/' :: d :: r) = some (takeDigits (d :: r)) := by
  induction p with
  | nil =>
      simp only [List.nil_append]
      rw [matchTail_cons]
      rw [if_pos (by decide : ('/' : Char).isDigit = false)]
      rw [matchTail_of_digit_head d r hd]
      simp [hd]
  | cons c p ih =>
      have hc : c.isDigit = false := hp c (by simp)
      have ih' := ih (fun x hx => hp x (by simp [hx]))
      simp only [List.cons_append]
      rw [matchTail_cons, if_pos hc, ih']

theorem matchTail_sound (cs : List Char) (g : List Char)
    (h : matchTail cs = some g) :
    ∃ p d r, cs = p ++ '/' :: d :: r ∧ (∀ c ∈ p, c.isDigit = false)
      ∧ d.isDigit = true ∧ g = takeDigits (d :: r) := by
  induction cs generalizing g with
  | nil => simp [matchTail] at h
  | cons c rest ih =>
      rw [matchTail_cons] at h
      by_cases hc : c.isDigit = false
      · rw [if_pos hc] at h
        cases hA : matchTail rest with
        | some g' =>
            rw [hA] at h
            simp only [Option.some.injEq] at h
            obtain ⟨p, d, r, hcs, hp, hd, hg⟩ := ih g' hA
            refine ⟨c :: p, d, r, by simp [hcs], ?_, hd, by rw [← h, hg]⟩
            intro x hx
            rcases List.mem_cons.mp hx with hx | hx
            · exact hx ▸ hc
            · exact hp x hx
        | none =>
            rw [hA] at h
            simp only at h
            by_cases hslash : c = '/'
            · rw [if_pos hslash] at h
              cases rest with
              | nil => simp at h
              | cons d r =>
                  simp only at h
                  by_cases hd : d.isDigit = true
                  · rw [if_pos hd] at h
                    simp only [Option.some.injEq] at h
                    exact ⟨[], d, r, by simp [hslash], by simp, hd, h.symm⟩
                  · rw [if_neg hd] at h
                    simp at h
            · rw [if_neg hslash] at h
              simp at h
      · rw [if_neg hc] at h
        simp only at h
        by_cases hslash : c = '/'
        · exact absurd (hslash ▸ (by decide : ('/' : Char).isDigit = false)) hc
        · rw [if_neg hslash] at h
          simp at h

theorem id_from_href_chars_cons (c0 c : Char) (rest : List Char) :
    id_from_href_chars (c0 :: c :: rest) =
      if c0 = '/' then (if c.isDigit then none else matchTail rest)
      else none := rfl

theorem id_from_href_chars_complete (P : List Char) (d : Char) (r : List Char)
    (hP : P ≠ []) (hPd : ∀ c ∈ P, c.isDigit = false) (hd : d.isDigit = true) :
    id_from_href_chars ('/' :: (P ++ '/' :: d :: r))
      = some (takeDigits (d :: r)) := by
  cases P with
  | nil => cases hP rfl
  | cons c p =>
      have hc : c.isDigit = false := hPd c (by simp)
      simp only [List.cons_append]
      rw [id_from_href_chars_cons, if_pos rfl, if_neg (by simp [hc])]
      exact matchTail_complete p d r (fun x hx => hPd x (by simp [hx])) hd

theorem id_from_href_chars_sound (cs : List Char) (g : List Char)
    (h : id_from_href_chars cs = some g) :
    ∃ P d r, cs = '/' :: (P ++ '/' :: d :: r) ∧ P ≠ []
      ∧ (∀ c ∈ P, c.isDigit = false) ∧ d.isDigit = true
      ∧ g = takeDigits (d :: r) := by
  cases cs with
  | nil => simp [id_from_href_chars] at h
  | cons c0 t =>
      cases t with
      | nil => simp [id_from_href_chars] at h
      | cons c rest =>
          rw [id_from_href_chars_cons] at h
          by_cases h0 : c0 = '/'
          · rw [if_pos h0] at h
            by_cases hc : c.isDigit = true
            · rw [if_pos hc] at h
              simp at h
            · rw [if_neg hc] at h
              obtain ⟨p, d, r, hcs, hp, hd, hg⟩ := matchTail_sound rest g h
              refine ⟨c :: p, d, r, by simp [h0, hcs], by simp, ?_, hd, hg⟩
              intro x hx
              rcases List.mem_cons.mp hx with hx | hx
              · simpa [hx] using hc
              · exact hp x hx
          · rw [if_neg h0] at h
            simp at h

/-- Modelled from the claim's words: an href "of the form `/kind/NUMERIC`
with an optional suffix" — a leading `/`, a non-empty first segment, a `/`,
a non-empty all-digit numeric portion, and then either nothing or a
`/`-introduced suffix. -/
def specHrefFormB (s : String) : Bool :=
  match s.data with
  | [] => false
  | c0 :: rest =>
      if c0 = '/' then
        let kind := rest.takeWhile (fun c => c != '/')
        let after := rest.drop kind.length
        if kind.isEmpty then false
        else
          match after with
          | [] => false
          | _ :: rest2 =>
              let digits := rest2.takeWhile Char.isDigit
              let suffix := rest2.drop digits.length
              if digits.isEmpty then false
              else suffix.isEmpty || suffix.head? = some '/'
      else false

/-- C8 counterexample: `"/device/2x"` is not of the form
`/kind/NUMERIC[/suffix]` (the numeric portion is followed by junk that is not
a `/`-suffix), yet `id_from_href` returns `"2"` instead of raising
`ValueError`, because `re.match` only anchors the pattern at the start of the
string and ignores trailing unmatched input. -/
theorem id_from_href_counterexample :
    id_from_href "/device/2x" = Except.ok "2"
    ∧ specHrefFormB "/device/2x" = false := by
  constructor <;> rfl

/-- C8 (amended): `id_from_href` performs a prefix match. It returns the
first maximal digit run `d :: r'` whenever the href decomposes as
`'/' ++ P ++ '/' ++ digit ++ anything` with `P` non-empty and digit-free
(`P` may itself contain `/`; anything at all may follow the digit run, no
suffix validation is performed); for every href admitting no such
decomposition — including hrefs whose kind segment contains a digit — it
raises `ValueError`. -/
theorem id_from_href_spec :
    (∀ (s : String) (P : List Char) (d : Char) (r : List Char),
        s.data = '/' :: (P ++ '/' :: d :: r) → P ≠ [] →
        (∀ c ∈ P, c.isDigit = false) → d.isDigit = true →
        id_from_href s = Except.ok (String.mk (takeDigits (d :: r))))
    ∧ (∀ s : String,
        (¬ ∃ P d r, s.data = '/' :: (P ++ '/' :: d :: r) ∧ P ≠ []
            ∧ (∀ c ∈ P, c.isDigit = false) ∧ d.isDigit = true) →
        id_from_href s = Except.error ("Cannot find ID from href " ++ s)) := by
  constructor
  · intro s P d r hs hP hPd hd
    unfold id_from_href
    rw [hs, id_from_href_chars_complete P d r hP hPd hd]
  · intro s hno
    unfold id_from_href
    cases hm : id_from_href_chars s.data with
    | none => rfl
    | some g =>
        obtain ⟨P, d, r, hs, hP, hPd, hd, _⟩ := id_from_href_chars_sound s.data g hm
        exact absurd ⟨P, d, r, hs, hP, hPd, hd⟩ hno

/-- Witness for `id_from_href_spec` at the well-formed href
`"/device/123/status"`. -/
theorem id_from_href_spec_witness :
    id_from_href "/device/123/status" = Except.ok "123" := by
  have h := id_from_href_spec.1 "/device/123/status"
    ['d', 'e', 'v', 'i', 'c', 'e'] '1' ['2', '3', '/', 's', 't', 'a', 't', 'u', 's']
    rfl (by decide) (by decide) (by decide)
  exact h.trans (by rfl)

/-! ## smartbridge.py: bridge model

The `Smartbridge` device dictionaries are heterogeneous Python dicts; the
embedding gives each one a structure holding exactly the keys the embedded
operations read or write, plus an `other` association list standing for the
remaining keys (name, type, model, serial, area, ...), which none of the
embedded operations touch. -/

/-- Embeds `pylutron_caseta.KEYPAD_LED_STATE_ON` (= 100). -/
def KEYPAD_LED_STATE_ON : Int := 100

/-- Embeds `pylutron_caseta.KEYPAD_LED_STATE_OFF` (= 0). -/
def KEYPAD_LED_STATE_OFF : Int := 0

/-- Embeds `pylutron_caseta.OCCUPANCY_GROUP_UNKNOWN` (= "Unknown"). -/
def OCCUPANCY_GROUP_UNKNOWN : String := "Unknown"

/-- A keypad button LED sub-dict (`{"led_id": ..., "current_state": ...}`). -/
structure Led where
  led_id : String
  current_state : Int
deriving Repr, DecidableEq

/-- A keypad button dict inside a button group: the `"current_state"` and
`"led"` keys (`"led"` is always present, possibly `None`). -/
structure Button where
  current_state : String := ""
  led : Option Led := none
deriving Repr, DecidableEq

/-- A button-group dict (`{"button_group_id": ..., "buttons": {...}}`). -/
structure ButtonGroup where
  button_group_id : String
  buttons : List (String × Button)
deriving Repr, DecidableEq

/-- A device dict in `self.devices`. -/
structure Device where
  device_id : String
  zone : Option String := none
  current_state : Int := -1
  fan_speed : Option String := none
  tilt : Option Int := none
  button_groups : List (String × ButtonGroup) := []
  other : List (String × String) := []
deriving Repr, DecidableEq

/-- A `self._led_device_map` entry; the handler reads the three keys with
`.get`, so each is optional. -/
structure LedMapEntry where
  keypad_device_id : Option String := none
  button_group_id : Option String := none
  button_id : Option String := none
deriving Repr, DecidableEq

/-- An area dict in `self.areas` (`dict(id=..., name=...)`). -/
structure Area where
  id : String
  name : String
deriving Repr, DecidableEq

/-- An occupancy-group dict in `self.occupancy_groups`; the `"name"` key is
absent until `_process_occupancy_group`'s `.update(name=...)` sets it. -/
structure OccupancyGroup where
  occupancy_group_id : String
  status : String
  sensors : List String
  name : Option String := none
deriving Repr, DecidableEq

/-- A scene dict in `self.scenes`; only membership matters here. -/
structure SceneEntry where
  name : String
deriving Repr, DecidableEq

/-- The parts of the `Smartbridge` state that the embedded operations use. -/
structure Smartbridge where
  devices : List (String × Device) := []
  scenes : List (String × SceneEntry) := []
  occupancy_groups : List (String × OccupancyGroup) := []
  areas : List (String × Area) := []
  subscribers : List (String × Nat) := []
  led_device_map : List (String × LedMapEntry) := []
deriving Repr, DecidableEq

/-- Observable callback effects of the smartbridge handlers. -/
inductive BridgeEvent where
  /-- `self._subscribers[key]()` for callback token `cb`. -/
  | invokeSubscriber (key : String) (cb : Nat)
deriving Repr, DecidableEq

/-- An outbound LEAP request issued through `self._request(communique_type,
url, {"Command": {"CommandType": command}})` (the only body shape the
operations below send). -/
structure Request where
  communique_type : String
  url : String
  command_type : Option String := none
deriving Repr, DecidableEq

/-! ## smartbridge.py: facade operations (C9, C10) -/

/-- Embeds `Smartbridge.activate_scene`: sends the `PressAndRelease`
CreateRequest only when `scene_id in self.scenes`; otherwise does nothing.
Returns the (unchanged) bridge state and the requests sent. -/
def activate_scene (b : Smartbridge) (scene_id : String) :
    Smartbridge × List Request :=
  match alGet b.scenes scene_id with
  | some _ =>
      (b, [{ communique_type := "CreateRequest",
             url := "/virtualbutton/" ++ scene_id ++ "/commandprocessor",
             command_type := some "PressAndRelease" }])
  | none => (b, [])

/-- Embeds `Smartbridge._get_zone_id`:
`self.devices[device_id].get("zone")`; raises `KeyError` if the device id is
not in the device map. -/
def _get_zone_id (b : Smartbridge) (device_id : String) :
    Except String (Option String) :=
  match alGet b.devices device_id with
  | none => Except.error ("KeyError: " ++ device_id)
  | some d => Except.ok d.zone

/-- Embeds `Smartbridge._send_zone_create_request`: look up the zone id, do
nothing when it is falsy (`None` or the empty string), otherwise send one
`CreateRequest /zone/{zone}/commandprocessor` with the given command. -/
def _send_zone_create_request (b : Smartbridge) (device_id command : String) :
    Except String (List Request) :=
  match _get_zone_id b device_id with
  | Except.error e => Except.error e
  | Except.ok none => Except.ok []
  | Except.ok (some z) =>
      if z = "" then Except.ok []
      else Except.ok
        [{ communique_type := "CreateRequest",
           url := "/zone/" ++ z ++ "/commandprocessor",
           command_type := some command }]

/-- Embeds `Smartbridge.raise_cover`: send `Raise`, then optimistically set
`self.devices[device_id]["current_state"] = 100` without waiting for (or
processing) any server status message. -/
def raise_cover (b : Smartbridge) (device_id : String) :
    Except String (Smartbridge × List Request) :=
  match _send_zone_create_request b device_id "Raise" with
  | Except.error e => Except.error e
  | Except.ok reqs =>
      match alGet b.devices device_id with
      | none => Except.error ("KeyError: " ++ device_id)
      | some d =>
          Except.ok
            ({ b with devices :=
                alInsert b.devices device_id { d with current_state := 100 } },
             reqs)

/-- Embeds `Smartbridge.lower_cover`: send `Lower`, then optimistically set
`self.devices[device_id]["current_state"] = 0`. -/
def lower_cover (b : Smartbridge) (device_id : String) :
    Except String (Smartbridge × List Request) :=
  match _send_zone_create_request b device_id "Lower" with
  | Except.error e => Except.error e
  | Except.ok reqs =>
      match alGet b.devices device_id with
      | none => Except.error ("KeyError: " ++ device_id)
      | some d =>
          Except.ok
            ({ b with devices :=
                alInsert b.devices device_id { d with current_state := 0 } },
             reqs)

/-! ## smartbridge.py: event handlers (C3, C6) -/

/-- The `OneZoneStatus` payload keys read by `_handle_zone_status`:
`status["Zone"]["href"]`, `status.get("Level", -1)`,
`status.get("FanSpeed", None)`, `status.get("Tilt", None)`. -/
structure ZoneStatus where
  Zone_href : String
  Level : Option Int := none
  FanSpeed : Option String := none
  Tilt : Option Int := none
deriving Repr, DecidableEq

/-- Embeds `Smartbridge.get_device_by_zone_id`: return the first device whose
`"zone"` equals `zone_id`, raising `KeyError` when none matches. The handler
mutates the returned dict in place, so the embedding also returns the
device-map key of the matching entry. -/
def get_device_by_zone_id (devices : List (String × Device)) (zone_id : String) :
    Except String (String × Device) :=
  match devices with
  | [] => Except.error ("KeyError: No device associated with zone " ++ zone_id)
  | (k, d) :: rest =>
      if d.zone = some zone_id then Except.ok (k, d)
      else get_device_by_zone_id rest zone_id

/-- Embeds `Smartbridge._handle_zone_status`: find the device by zone; set
`current_state` only when `status.get("Level", -1) >= 0`; always overwrite
`fan_speed` and `tilt` from the payload; invoke the device's subscriber
callback when one is registered for its `device_id`. -/
def _handle_zone_status (b : Smartbridge) (status : ZoneStatus) :
    Except String (Smartbridge × List BridgeEvent) :=
  match id_from_href status.Zone_href with
  | Except.error e => Except.error e
  | Except.ok zone =>
      let level : Int :=
        match status.Level with
        | some l => l
        | none => -1
      match get_device_by_zone_id b.devices zone with
      | Except.error e => Except.error e
      | Except.ok (key, device) =>
          let device :=
            if level ≥ 0 then { device with current_state := level } else device
          let device := { device with fan_speed := status.FanSpeed,
                                      tilt := status.Tilt }
          let events :=
            match alGet b.subscribers device.device_id with
            | some cb => [BridgeEvent.invokeSubscriber device.device_id cb]
            | none => []
          Except.ok ({ b with devices := alInsert b.devices key device }, events)

/-- The `LEDStatus` payload keys read by `_handle_button_led_status`:
`status["LED"]["href"]` and `status["State"]`. -/
structure LEDStatus where
  LED_href : String
  State : String
deriving Repr, DecidableEq

/-- Embeds `Smartbridge._handle_button_led_status` applied to
`response.Body` (`none` embeds `response.Body is None`): extract the LED id;
compute the new state (`On` ↦ 100, anything else ↦ 0); walk the
`_led_device_map` entry and the nested device/button-group/button dicts,
returning with only a logged error when any lookup fails; write the state
into the button's `"led"` dict; then invoke `self._subscribers[button_led_id]`
when registered (the subscriber key is the LED id). -/
def _handle_button_led_status (b : Smartbridge) (body : Option LEDStatus) :
    Except String (Smartbridge × List BridgeEvent) :=
  match body with
  | none => Except.ok (b, [])
  | some status =>
      match id_from_href status.LED_href with
      | Except.error e => Except.error e
      | Except.ok button_led_id =>
          let state : Int :=
            if status.State = "On" then KEYPAD_LED_STATE_ON
            else KEYPAD_LED_STATE_OFF
          match alGet b.led_device_map button_led_id with
          | none => Except.ok (b, [])
          | some entry =>
              match entry.keypad_device_id, entry.button_group_id,
                  entry.button_id with
              | some device_id, some button_group_id, some button_id =>
                  match alGet b.devices device_id with
                  | none => Except.ok (b, [])
                  | some device =>
                      match alGet device.button_groups button_group_id with
                      | none => Except.ok (b, [])
                      | some bg =>
                          match alGet bg.buttons button_id with
                          | none => Except.ok (b, [])
                          | some btn =>
                              match btn.led with
                              | none =>
                                  Except.error
                                    "TypeError: button has no led dict"
                              | some led =>
                                  let led' := { led with current_state := state }
                                  let btn' := { btn with led := some led' }
                                  let btns' := alInsert bg.buttons button_id btn'
                                  let bg' := { bg with buttons := btns' }
                                  let bgs' :=
                                    alInsert device.button_groups button_group_id bg'
                                  let device' := { device with button_groups := bgs' }
                                  let devs' := alInsert b.devices device_id device'
                                  let events :=
                                    match alGet b.subscribers button_led_id with
                                    | some cb =>
                                        [BridgeEvent.invokeSubscriber
                                          button_led_id cb]
                                    | none => []
                                  Except.ok ({ b with devices := devs' }, events)
              | _, _, _ => Except.ok (b, [])

/-! ## smartbridge.py: occupancy-group load (C2) -/

/-- An `AssociatedSensors` element (`sensor["OccupancySensor"]["href"]`). -/
structure OccSensorRef where
  OccupancySensor_href : String
deriving Repr, DecidableEq

/-- An `AssociatedAreas` element (`area["Area"]["href"]`). -/
structure OccAreaRef where
  Area_href : String
deriving Repr, DecidableEq

/-- One group record from the `/occupancygroup` read body, with the keys
`_process_occupancy_group` reads (`.get` with a `[]` default for the two
lists). -/
structure OccGroupDef where
  href : String
  AssociatedSensors : List OccSensorRef := []
  AssociatedAreas : List OccAreaRef := []
deriving Repr, DecidableEq

/-- Embeds the `for sensor in associated_sensors:
occsensor_ids.append(id_from_href(sensor["OccupancySensor"]["href"]))` loop
(a raised `ValueError` propagates). -/
def extract_sensor_ids : List OccSensorRef → Except String (List String)
  | [] => Except.ok []
  | s :: rest =>
      match id_from_href s.OccupancySensor_href with
      | Except.error e => Except.error e
      | Except.ok i =>
          match extract_sensor_ids rest with
          | Except.error e => Except.error e
          | Except.ok ids => Except.ok (i :: ids)

/-- Embeds `Smartbridge._process_occupancy_group`: skip groups with no
associated sensors; collect the sensor ids; skip groups with no associated
areas; when there are several areas only warn and name from the first; skip
groups whose (first) area id is unknown; otherwise
`self.occupancy_groups.setdefault(occgroup_id, dict(occupancy_group_id=...,
status=Unknown, sensors=...)).update(name=f"{area_name} Occupancy")`. -/
def _process_occupancy_group (b : Smartbridge) (occgroup : OccGroupDef) :
    Except String Smartbridge :=
  match id_from_href occgroup.href with
  | Except.error e => Except.error e
  | Except.ok occgroup_id =>
      match occgroup.AssociatedSensors with
      | [] => Except.ok b
      | s0 :: srest =>
          match extract_sensor_ids (s0 :: srest) with
          | Except.error e => Except.error e
          | Except.ok occsensor_ids =>
              match occgroup.AssociatedAreas with
              | [] => Except.ok b
              | a0 :: _ =>
                  match id_from_href a0.Area_href with
                  | Except.error e => Except.error e
                  | Except.ok occgroup_area_id =>
                      match alGet b.areas occgroup_area_id with
                      | none => Except.ok b
                      | some area =>
                          let base :=
                            match alGet b.occupancy_groups occgroup_id with
                            | some existing => existing
                            | none =>
                                { occupancy_group_id := occgroup_id,
                                  status := OCCUPANCY_GROUP_UNKNOWN,
                                  sensors := occsensor_ids,
                                  name := none }
                          let entry :=
                            { base with name := some (area.name ++ " Occupancy") }
                          let ogs' := alInsert b.occupancy_groups occgroup_id entry
                          Except.ok { b with occupancy_groups := ogs' }

/-! ## facade theorems (C9, C10) -/

/-- C10: `activate_scene(scene_id)` sends the `PressAndRelease` CreateRequest
to `/virtualbutton/{scene_id}/commandprocessor` iff `scene_id` is a key of
the scenes map; for any other `scene_id` it returns immediately, sending
nothing, raising nothing (the embedding is a total function) and changing no
state (the bridge component of the result is always `b`). -/
theorem activate_scene_spec (b : Smartbridge) (scene_id : String) :
    (activate_scene b scene_id).1 = b
    ∧ ((activate_scene b scene_id).2 = [] ↔ alGet b.scenes scene_id = none)
    ∧ (∀ s, alGet b.scenes scene_id = some s →
        (activate_scene b scene_id).2 =
          [{ communique_type := "CreateRequest",
             url := "/virtualbutton/" ++ scene_id ++ "/commandprocessor",
             command_type := some "PressAndRelease" }]) := by
  unfold activate_scene
  cases h : alGet b.scenes scene_id with
  | none => refine ⟨rfl, by simp, ?_⟩; intro s hs; simp [h] at hs
  | some s => exact ⟨rfl, by simp, fun _ _ => rfl⟩

/-- Witness for `activate_scene_spec` with scene `"23"` present in the scenes
map. -/
theorem activate_scene_spec_witness :
    alGet (⟨[], [("23", ⟨"Evening"⟩)], [], [], [], []⟩ :
        Smartbridge).scenes "23" = some ⟨"Evening"⟩
    ∧ (activate_scene ⟨[], [("23", ⟨"Evening"⟩)], [], [], [], []⟩ "23").2 =
        [{ communique_type := "CreateRequest",
           url := "/virtualbutton/23/commandprocessor",
           command_type := some "PressAndRelease" }] := by
  refine ⟨rfl, ?_⟩
  have h := (activate_scene_spec
    ⟨[], [("23", ⟨"Evening"⟩)], [], [], [], []⟩ "23").2.2 ⟨"Evening"⟩ rfl
  exact h.trans (by rfl)

/-- C9: immediately after `raise_cover(device_id)` completes, the device's
cached `current_state` is 100, and after `lower_cover(device_id)` it is 0 —
the write is performed by the call itself, with no server status message
processed (the embedding consumes no inbound frame); every other field of
that device, every other device, and every other bridge table is unchanged;
and both calls do complete (return `Except.ok`) when the device exists. -/
theorem raise_lower_cover_optimism (b : Smartbridge) (device_id : String)
    (d : Device) (hd : alGet b.devices device_id = some d) :
    (∀ b' reqs, raise_cover b device_id = Except.ok (b', reqs) →
        alGet b'.devices device_id = some { d with current_state := 100 }
        ∧ (∀ k, k ≠ device_id → alGet b'.devices k = alGet b.devices k)
        ∧ b'.scenes = b.scenes ∧ b'.occupancy_groups = b.occupancy_groups
        ∧ b'.areas = b.areas ∧ b'.subscribers = b.subscribers
        ∧ b'.led_device_map = b.led_device_map)
    ∧ (∃ b' reqs, raise_cover b device_id = Except.ok (b', reqs))
    ∧ (∀ b' reqs, lower_cover b device_id = Except.ok (b', reqs) →
        alGet b'.devices device_id = some { d with current_state := 0 }
        ∧ (∀ k, k ≠ device_id → alGet b'.devices k = alGet b.devices k)
        ∧ b'.scenes = b.scenes ∧ b'.occupancy_groups = b.occupancy_groups
        ∧ b'.areas = b.areas ∧ b'.subscribers = b.subscribers
        ∧ b'.led_device_map = b.led_device_map)
    ∧ (∃ b' reqs, lower_cover b device_id = Except.ok (b', reqs)) := by
  have hgz : _get_zone_id b device_id = Except.ok d.zone := by
    unfold _get_zone_id
    rw [hd]
  have hsend : ∀ command : String, ∃ reqs,
      _send_zone_create_request b device_id command = Except.ok reqs := by
    intro command
    unfold _send_zone_create_request
    rw [hgz]
    cases hz : d.zone with
    | none => exact ⟨[], rfl⟩
    | some z =>
        by_cases hz0 : z = ""
        · exact ⟨[], by simp [hz0]⟩
        · exact ⟨[{ communique_type := "CreateRequest",
                    url := "/zone/" ++ z ++ "/commandprocessor",
                    command_type := some command }], by simp [hz0]⟩
  obtain ⟨reqsR, hR⟩ := hsend "Raise"
  obtain ⟨reqsL, hL⟩ := hsend "Lower"
  have hraise : raise_cover b device_id = Except.ok
      ({ b with devices :=
          alInsert b.devices device_id { d with current_state := 100 } },
       reqsR) := by
    unfold raise_cover
    rw [hR, hd]
  have hlower : lower_cover b device_id = Except.ok
      ({ b with devices :=
          alInsert b.devices device_id { d with current_state := 0 } },
       reqsL) := by
    unfold lower_cover
    rw [hL, hd]
  refine ⟨?_, ⟨_, _, hraise⟩, ?_, ⟨_, _, hlower⟩⟩
  · intro b' reqs h
    rw [hraise] at h
    injection h with h
    injection h with h1 h2
    subst h1
    refine ⟨alGet_alInsert_self _ _ _, ?_, rfl, rfl, rfl, rfl, rfl⟩
    intro k hk
    exact alGet_alInsert_ne _ _ _ _ (Ne.symm hk)
  · intro b' reqs h
    rw [hlower] at h
    injection h with h
    injection h with h1 h2
    subst h1
    refine ⟨alGet_alInsert_self _ _ _, ?_, rfl, rfl, rfl, rfl, rfl⟩
    intro k hk
    exact alGet_alInsert_ne _ _ _ _ (Ne.symm hk)

/-- Witness for `raise_lower_cover_optimism` at a concrete two-device bridge:
cover device `"4"` (zone `"9"`) goes to 100 after `raise_cover` and device
`"8"` is untouched. -/
theorem raise_lower_cover_optimism_witness :
    alGet (⟨[("4", { device_id := "4", zone := some "9" }),
             ("8", { device_id := "8", current_state := 30 })],
           [], [], [], [], []⟩ : Smartbridge).devices "4" =
        some { device_id := "4", zone := some "9" }
    ∧ ∀ b' reqs,
        raise_cover ⟨[("4", { device_id := "4", zone := some "9" }),
                      ("8", { device_id := "8", current_state := 30 })],
                    [], [], [], [], []⟩ "4" = Except.ok (b', reqs) →
        alGet b'.devices "4" =
          some { device_id := "4", zone := some "9", current_state := 100 } := by
  refine ⟨rfl, ?_⟩
  intro b' reqs h
  have hmain := (raise_lower_cover_optimism
    ⟨[("4", { device_id := "4", zone := some "9" }),
      ("8", { device_id := "8", current_state := 30 })],
     [], [], [], [], []⟩ "4" { device_id := "4", zone := some "9" } rfl).1
    b' reqs h
  exact hmain.1

/-! ## zone status theorem (C6) -/

/-- C6: when a zone status payload is processed for a zone matching some
device: `current_state` is set to the payload's Level exactly when Level is
present and ≥ 0, and left unchanged otherwise; `fan_speed` and `tilt` are
always overwritten with the payload's values (absent ↦ null); every other
device-map entry is untouched; and the device's subscriber callback is
invoked exactly when one is registered for its device id. -/
theorem handle_zone_status_spec (b : Smartbridge) (status : ZoneStatus)
    (zone : String) (hzone : id_from_href status.Zone_href = Except.ok zone)
    (key : String) (d : Device)
    (hfind : get_device_by_zone_id b.devices zone = Except.ok (key, d)) :
    (∃ b' evs, _handle_zone_status b status = Except.ok (b', evs))
    ∧ (∀ b' evs, _handle_zone_status b status = Except.ok (b', evs) →
        alGet b'.devices key = some
          { d with
              current_state :=
                match status.Level with
                | some l => if l ≥ 0 then l else d.current_state
                | none => d.current_state,
              fan_speed := status.FanSpeed,
              tilt := status.Tilt }
        ∧ (∀ k, k ≠ key → alGet b'.devices k = alGet b.devices k)
        ∧ evs = (match alGet b.subscribers d.device_id with
            | some cb => [BridgeEvent.invokeSubscriber d.device_id cb]
            | none => [])) := by
  have heq : _handle_zone_status b status = Except.ok
      ({ b with
          devices :=
            alInsert b.devices key
              { d with
                  current_state :=
                    match status.Level with
                    | some l => if l ≥ 0 then l else d.current_state
                    | none => d.current_state,
                  fan_speed := status.FanSpeed,
                  tilt := status.Tilt } },
       (match alGet b.subscribers d.device_id with
        | some cb => [BridgeEvent.invokeSubscriber d.device_id cb]
        | none => [])) := by
    unfold _handle_zone_status
    rw [hzone]
    simp only
    rw [hfind]
    cases hl : status.Level with
    | none =>
        simp only
        rw [if_neg (by norm_num : ¬ (-1 : Int) ≥ 0)]
    | some l =>
        simp only
        by_cases hl0 : l ≥ 0
        · rw [if_pos hl0, if_pos hl0]
        · rw [if_neg hl0, if_neg hl0]
  refine ⟨⟨_, _, heq⟩, ?_⟩
  intro b' evs h
  rw [heq] at h
  injection h with h
  injection h with h1 h2
  subst h1
  subst h2
  refine ⟨alGet_alInsert_self _ _ _, ?_, rfl⟩
  intro k hk
  exact alGet_alInsert_ne _ _ _ _ (Ne.symm hk)

/-- Witness for `handle_zone_status_spec` at a concrete bridge: zone `"9"`
matches device `"4"`, Level 75 is applied, and the registered subscriber for
device `"4"` is invoked. -/
theorem handle_zone_status_spec_witness :
    id_from_href "/zone/9" = Except.ok "9"
    ∧ get_device_by_zone_id
        [("4", { device_id := "4", zone := some "9", current_state := 30 })] "9"
        = Except.ok ("4", { device_id := "4", zone := some "9",
                            current_state := 30 })
    ∧ ∀ b' evs,
        _handle_zone_status
          ⟨[("4", { device_id := "4", zone := some "9", current_state := 30 })],
           [], [], [], [("4", 2)], []⟩
          { Zone_href := "/zone/9", Level := some 75,
            FanSpeed := none, Tilt := some 12 } = Except.ok (b', evs) →
        alGet b'.devices "4" = some
          { device_id := "4", zone := some "9", current_state := 75,
            fan_speed := none, tilt := some 12 }
        ∧ evs = [BridgeEvent.invokeSubscriber "4" 2] := by
  refine ⟨rfl, rfl, ?_⟩
  intro b' evs h
  have hmain := (handle_zone_status_spec
    ⟨[("4", { device_id := "4", zone := some "9", current_state := 30 })],
     [], [], [], [("4", 2)], []⟩
    { Zone_href := "/zone/9", Level := some 75, FanSpeed := none,
      Tilt := some 12 }
    "9" rfl
    "4" { device_id := "4", zone := some "9", current_state := 30 } rfl).2
    b' evs h
  refine ⟨hmain.1.trans (by norm_num), hmain.2.2.trans (by rfl)⟩

/-! ## button LED status theorems (C3) -/

/-- Concrete LED dict for the C3 scenario: LED `"7"`, state unknown. -/
def c3Led : Led := { led_id := "7", current_state := -1 }

/-- Concrete button `"3"` carrying LED `"7"`. -/
def c3Button : Button := { current_state := "Release", led := some c3Led }

/-- Concrete button group `"5"` containing button `"3"`. -/
def c3Group : ButtonGroup :=
  { button_group_id := "5", buttons := [("3", c3Button)] }

/-- Concrete keypad device `"100"` containing button group `"5"`. -/
def c3Device : Device :=
  { device_id := "100", button_groups := [("5", c3Group)] }

/-- Concrete bridge: keypad `"100"` has a registered subscriber (token 1);
LED `"7"` is indexed to keypad `"100"`, group `"5"`, button `"3"`; no
subscriber is registered under the LED id `"7"`. -/
def c3Bridge : Smartbridge :=
  { devices := [("100", c3Device)],
    subscribers := [("100", 1)],
    led_device_map := [("7",
      { keypad_device_id := some "100", button_group_id := some "5",
        button_id := some "3" })] }

/-- The bridge state after the LED `"7"` status update is applied. -/
def c3BridgeAfter : Smartbridge :=
  { c3Bridge with
      devices := [("100",
        { c3Device with
            button_groups := [("5",
              { c3Group with
                  buttons := [("3",
                    { c3Button with
                        led := some { c3Led with current_state := 100 } })] })] })] }

/-- C3 counterexample: LED `"7"` is in the LED index with parent keypad
`"100"`, and keypad `"100"` has a registered subscriber, yet processing an
`"On"` LED status for LED `"7"` updates the LED state and invokes no
callback at all (the event list is empty) — because
`_handle_button_led_status` keys the notification lookup on the LED id
(`self._subscribers[button_led_id]`), not on the parent keypad device id as
the claim states. -/
theorem handle_button_led_status_counterexample :
    alGet c3Bridge.subscribers "100" = some 1
    ∧ alGet c3Bridge.led_device_map "7" = some
        { keypad_device_id := some "100", button_group_id := some "5",
          button_id := some "3" }
    ∧ _handle_button_led_status c3Bridge
        (some { LED_href := "/led/7", State := "On" })
        = Except.ok (c3BridgeAfter, []) := by
  refine ⟨rfl, rfl, ?_⟩
  rfl

/-- C3 (amended): when an LED status message arrives for an LED id present in
the LED index (with a complete index entry and existing parent keypad
device, button group, button and led dict), the LED's cached current state is
set to 100 if the payload State is `"On"` and to 0 otherwise, every other
device-map entry is untouched, and the subscriber callback registered under
the **LED id** (not the parent keypad device id) is invoked if one is
registered. -/
theorem handle_button_led_status_spec
    (b : Smartbridge) (status : LEDStatus) (lid : String)
    (hlid : id_from_href status.LED_href = Except.ok lid)
    (entry : LedMapEntry) (hentry : alGet b.led_device_map lid = some entry)
    (device_id bgid bid : String)
    (he1 : entry.keypad_device_id = some device_id)
    (he2 : entry.button_group_id = some bgid)
    (he3 : entry.button_id = some bid)
    (device : Device) (hdev : alGet b.devices device_id = some device)
    (bg : ButtonGroup) (hbg : alGet device.button_groups bgid = some bg)
    (btn : Button) (hbtn : alGet bg.buttons bid = some btn)
    (led : Led) (hled : btn.led = some led) :
    ∃ b', _handle_button_led_status b (some status) = Except.ok
        (b',
         (match alGet b.subscribers lid with
          | some cb => [BridgeEvent.invokeSubscriber lid cb]
          | none => []))
      ∧ (∃ device' bg' btn',
          alGet b'.devices device_id = some device'
          ∧ alGet device'.button_groups bgid = some bg'
          ∧ alGet bg'.buttons bid = some btn'
          ∧ btn'.led = some
              { led with current_state := if status.State = "On" then 100 else 0 })
      ∧ (∀ k, k ≠ device_id → alGet b'.devices k = alGet b.devices k) := by
  have hstate : (if status.State = "On" then KEYPAD_LED_STATE_ON
      else KEYPAD_LED_STATE_OFF) = (if status.State = "On" then 100 else 0) := by
    by_cases hs : status.State = "On" <;>
      simp [hs, KEYPAD_LED_STATE_ON, KEYPAD_LED_STATE_OFF]
  refine ⟨{ b with
      devices :=
        alInsert b.devices device_id
          { device with
              button_groups :=
                alInsert device.button_groups bgid
                  { bg with
                      buttons :=
                        alInsert bg.buttons bid
                          { btn with
                              led :=
                                some
                                  { led with
                                      current_state :=
                                        if status.State = "On"
                                        then KEYPAD_LED_STATE_ON
                                        else KEYPAD_LED_STATE_OFF } } } } },
    ?_, ?_, ?_⟩
  · unfold _handle_button_led_status
    simp only
    rw [hlid]
    simp only
    rw [hentry]
    simp only
    rw [he1, he2, he3]
    simp only
    rw [hdev]
    simp only
    rw [hbg]
    simp only
    rw [hbtn]
    simp only
    rw [hled]
  · refine ⟨_, _, _, alGet_alInsert_self _ _ _,
      alGet_alInsert_self _ _ _, alGet_alInsert_self _ _ _, ?_⟩
    rw [hstate]
  · intro k hk
    exact alGet_alInsert_ne _ _ _ _ (Ne.symm hk)

/-- Witness for `handle_button_led_status_spec`: the same layout as
`c3Bridge` but with a subscriber (token 9) registered under the LED id
`"7"`; the callback keyed by the LED id is invoked. -/
theorem handle_button_led_status_spec_witness :
    ∃ b', _handle_button_led_status
        { c3Bridge with subscribers := [("100", 1), ("7", 9)] }
        (some { LED_href := "/led/7", State := "On" }) = Except.ok
        (b', [BridgeEvent.invokeSubscriber "7" 9])
      ∧ (∃ device' bg' btn',
          alGet b'.devices "100" = some device'
          ∧ alGet device'.button_groups "5" = some bg'
          ∧ alGet bg'.buttons "3" = some btn'
          ∧ btn'.led = some { c3Led with current_state := 100 })
      ∧ (∀ k, k ≠ "100" → alGet b'.devices k =
          alGet ({ c3Bridge with
            subscribers := [("100", 1), ("7", 9)] } : Smartbridge).devices k) := by
  have h := handle_button_led_status_spec
    { c3Bridge with subscribers := [("100", 1), ("7", 9)] }
    { LED_href := "/led/7", State := "On" } "7" rfl
    { keypad_device_id := some "100", button_group_id := some "5",
      button_id := some "3" } rfl
    "100" "5" "3" rfl rfl rfl
    c3Device rfl c3Group rfl c3Button rfl c3Led rfl
  obtain ⟨b', h1, h2, h3⟩ := h
  exact ⟨b', h1.trans (by rfl), h2, h3⟩

/-! ## occupancy-group theorems (C2) -/

/-- Concrete area table: area `"2"` named `"Kitchen"`. -/
def c2Areas : List (String × Area) := [("2", { id := "2", name := "Kitchen" })]

/-- Concrete bridge holding only the area table. -/
def c2Bridge : Smartbridge := { areas := c2Areas }

/-- A group with one sensor and TWO associated areas (the first known). -/
def c2Group : OccGroupDef :=
  { href := "/occupancygroup/5",
    AssociatedSensors := [{ OccupancySensor_href := "/occupancysensor/3" }],
    AssociatedAreas := [{ Area_href := "/area/2" }, { Area_href := "/area/9" }] }

/-- C2 counterexample: a group with one sensor and two associated areas DOES
produce an occupancy-group entry (named from the first area, after only a
warning) — the claim says a group with more than one associated area must not
produce an entry. -/
theorem process_occupancy_group_counterexample :
    c2Group.AssociatedAreas.length = 2
    ∧ _process_occupancy_group c2Bridge c2Group = Except.ok
        { c2Bridge with occupancy_groups := [("5",
            { occupancy_group_id := "5", status := "Unknown",
              sensors := ["3"], name := some "Kitchen Occupancy" })] } := by
  exact ⟨rfl, rfl⟩

/-- C2 (amended): processing an `/occupancygroup` record (with a fresh group
id) creates an occupancy-group entry iff the group has at least one
associated sensor and at least one associated area whose FIRST entry resolves
to a known area id (groups with several areas are processed too, named from
the first); any created entry is named `"<area> Occupancy"`, has status
Unknown and carries the group's extracted sensor ids. -/
theorem process_occupancy_group_spec
    (b : Smartbridge) (g : OccGroupDef) (gid : String)
    (hgid : id_from_href g.href = Except.ok gid)
    (hfresh : alGet b.occupancy_groups gid = none)
    (b' : Smartbridge)
    (hok : _process_occupancy_group b g = Except.ok b') :
    ((∃ e, alGet b'.occupancy_groups gid = some e) ↔
      (g.AssociatedSensors ≠ []
        ∧ ∃ a rest aid ar, g.AssociatedAreas = a :: rest
            ∧ id_from_href a.Area_href = Except.ok aid
            ∧ alGet b.areas aid = some ar))
    ∧ (∀ e, alGet b'.occupancy_groups gid = some e →
        ∃ sids aid ar a rest,
          extract_sensor_ids g.AssociatedSensors = Except.ok sids
          ∧ g.AssociatedAreas = a :: rest
          ∧ id_from_href a.Area_href = Except.ok aid
          ∧ alGet b.areas aid = some ar
          ∧ e = { occupancy_group_id := gid, status := OCCUPANCY_GROUP_UNKNOWN,
                  sensors := sids,
                  name := some (ar.name ++ " Occupancy") }) := by
  unfold _process_occupancy_group at hok
  rw [hgid] at hok
  simp only at hok
  cases hS : g.AssociatedSensors with
  | nil =>
      rw [hS] at hok
      simp only at hok
      injection hok with hok
      subst hok
      constructor
      · constructor
        · rintro ⟨e, he⟩
          rw [hfresh] at he
          cases he
        · rintro ⟨hne, -⟩
          exact absurd rfl hne
      · intro e he
        rw [hfresh] at he
        cases he
  | cons s0 srest =>
      rw [hS] at hok
      simp only at hok
      cases hES : extract_sensor_ids (s0 :: srest) with
      | error e => rw [hES] at hok; cases hok
      | ok sids =>
          rw [hES] at hok
          simp only at hok
          cases hA : g.AssociatedAreas with
          | nil =>
              rw [hA] at hok
              simp only at hok
              injection hok with hok
              subst hok
              constructor
              · constructor
                · rintro ⟨e, he⟩
                  rw [hfresh] at he
                  cases he
                · rintro ⟨-, a, rest, aid, ar, hcons, -, -⟩
                  cases hcons
              · intro e he
                rw [hfresh] at he
                cases he
          | cons a0 arest =>
              rw [hA] at hok
              simp only at hok
              cases hAid : id_from_href a0.Area_href with
              | error e => rw [hAid] at hok; cases hok
              | ok aid =>
                  rw [hAid] at hok
                  simp only at hok
                  cases hAr : alGet b.areas aid with
                  | none =>
                      rw [hAr] at hok
                      simp only at hok
                      injection hok with hok
                      subst hok
                      constructor
                      · constructor
                        · rintro ⟨e, he⟩
                          rw [hfresh] at he
                          cases he
                        · rintro ⟨-, a, rest, aid', ar, hcons, hid, har⟩
                          exfalso
                          injection hcons with h1 h2
                          subst h1
                          rw [hAid] at hid
                          injection hid with hid
                          subst hid
                          rw [hAr] at har
                          cases har
                      · intro e he
                        rw [hfresh] at he
                        cases he
                  | some ar =>
                      rw [hAr] at hok
                      simp only at hok
                      rw [hfresh] at hok
                      simp only at hok
                      injection hok with hok
                      subst hok
                      constructor
                      · constructor
                        · intro _
                          exact ⟨List.cons_ne_nil s0 srest,
                            a0, arest, aid, ar, rfl, hAid, hAr⟩
                        · intro _
                          exact ⟨_, alGet_alInsert_self _ _ _⟩
                      · intro e he
                        rw [alGet_alInsert_self] at he
                        injection he with he
                        exact ⟨sids, aid, ar, a0, arest, rfl, rfl, hAid,
                          hAr, he.symm⟩

/-- A group with one sensor and one associated area (known), used as the
witness input for `process_occupancy_group_spec`. -/
def c2GroupW : OccGroupDef :=
  { href := "/occupancygroup/6",
    AssociatedSensors := [{ OccupancySensor_href := "/occupancysensor/3" }],
    AssociatedAreas := [{ Area_href := "/area/2" }] }

/-- The state after processing `c2GroupW` against `c2Bridge`. -/
def c2BridgeAfterW : Smartbridge :=
  { c2Bridge with occupancy_groups := [("6",
      { occupancy_group_id := "6", status := "Unknown",
        sensors := ["3"], name := some "Kitchen Occupancy" })] }

/-- Witness for `process_occupancy_group_spec`: a well-formed group creates
its entry. -/
theorem process_occupancy_group_spec_witness :
    ∃ e, alGet c2BridgeAfterW.occupancy_groups "6" = some e := by
  have h := process_occupancy_group_spec c2Bridge c2GroupW "6" rfl rfl
    c2BridgeAfterW (by rfl)
  exact h.1.mpr ⟨by simp [c2GroupW],
    ⟨{ Area_href := "/area/2" }, [], "2", { id := "2", name := "Kitchen" },
     rfl, rfl, rfl⟩⟩
